import Mathlib

/-!
Shallow embedding of `papersplease.py`: a border-control inspector that
ingests policy bulletins (mutating a policy state) and inspects entrants'
document bundles, producing a decision string.

Python strings are modelled as Lean `String`s, with all string operations
re-implemented by structural recursion over `String.data` (lists of
characters) so that every definition evaluates inside the kernel.
Python `dict`s are modelled as association lists preserving insertion
order (value overwritten in place on key collision, as in Python), and
Python `set`s as duplicate-free lists.  A Python exception escaping a
function is modelled as `Option`/`Except` failure (`none` / `.error`).
-/

namespace PapersPlease

/-! ## String primitives (kernel-computable re-implementations) -/

/-- `startsWithL pat l` : is `pat` a prefix of `l`?  (Python `str.startswith`.) -/
def startsWithL : List Char → List Char → Bool
  | [], _ => true
  | _ :: _, [] => false
  | a :: as, b :: bs => a == b && startsWithL as bs

/-- Index of the first occurrence of `pat` in `l`, if any (Python `str.find`). -/
def findIdxL (pat : List Char) : List Char → Option Nat
  | [] => if pat.isEmpty then some 0 else none
  | c :: cs =>
    if startsWithL pat (c :: cs) then some 0
    else (findIdxL pat cs).map (· + 1)

/-- Fuel-driven worker for `splitOnL` (fuel bounds the number of steps; it is
initialised to the list length, which always suffices for non-empty separators). -/
def splitOnAuxL (sep : List Char) : Nat → List Char → List Char → List (List Char)
  | _, [], cur => [cur.reverse]
  | 0, l, cur => [cur.reverse ++ l]
  | fuel + 1, c :: cs, cur =>
    if startsWithL sep (c :: cs) then
      cur.reverse :: splitOnAuxL sep fuel (List.drop (sep.length - 1) cs) []
    else
      splitOnAuxL sep fuel cs (c :: cur)

/-- Split on a separator (Python `str.split(sep)` for a non-empty separator). -/
def splitOnL (sep l : List Char) : List (List Char) := splitOnAuxL sep l.length l []

/-- Fuel-driven worker for `replaceL`. -/
def replaceAuxL (pat rep : List Char) : Nat → List Char → List Char
  | _, [] => []
  | 0, l => l
  | fuel + 1, c :: cs =>
    if startsWithL pat (c :: cs) then
      rep ++ replaceAuxL pat rep fuel (List.drop (pat.length - 1) cs)
    else
      c :: replaceAuxL pat rep fuel cs

/-- Replace every non-overlapping occurrence, left to right (Python `str.replace`). -/
def replaceL (pat rep l : List Char) : List Char := replaceAuxL pat rep l.length l

/-- Strip leading and trailing whitespace (Python `str.strip`). -/
def trimL (l : List Char) : List Char :=
  ((l.dropWhile Char.isWhitespace).reverse.dropWhile Char.isWhitespace).reverse

/-- String wrappers around the list-level primitives. -/
def sStartsWith (s pat : String) : Bool := startsWithL pat.data s.data

def sContains (s pat : String) : Bool := (findIdxL pat.data s.data).isSome

def sSplitOn (s sep : String) : List String := (splitOnL sep.data s.data).map String.mk

def sReplace (s pat rep : String) : String := String.mk (replaceL pat.data rep.data s.data)

def sTrim (s : String) : String := String.mk (trimL s.data)

def sToLower (s : String) : String := String.mk (s.data.map Char.toLower)

def sLen (s : String) : Nat := s.data.length

/-- Python `str.find`: index of first occurrence, `-1` when absent. -/
def sFindI (s pat : String) : Int :=
  match findIdxL pat.data s.data with
  | some i => (i : Int)
  | none => -1

/-- Python slice `s[a:b]` (negative indices count from the end, bounds clamped). -/
def pySlice (s : String) (a b : Int) : String :=
  let n : Int := (sLen s : Int)
  let a' : Nat := (if a < 0 then max 0 (n + a) else min a n).toNat
  let b' : Nat := (if b < 0 then max 0 (n + b) else min b n).toNat
  String.mk ((s.data.take b').drop a')

/-- Python slice `s[a:]`. -/
def pySliceFrom (s : String) (a : Int) : String := pySlice s a (sLen s : Int)

/-- Join with a separator (Python `sep.join`). -/
def sJoin (sep : String) : List String → String
  | [] => ""
  | [x] => x
  | x :: xs => x ++ sep ++ sJoin sep xs

/-! ## Generic containers

Python `dict`s are association lists: insertion keeps the original position
of an existing key and overwrites its value, new keys go to the back.
Python `set`s of strings are duplicate-free lists (Python's iteration order
over a `set` is unspecified; the model fixes first-insertion order). -/

def lookupKV {κ α : Type} [BEq κ] : List (κ × α) → κ → Option α
  | [], _ => none
  | (k', v) :: rest, k => if k' == k then some v else lookupKV rest k

def insertKV {κ α : Type} [BEq κ] : List (κ × α) → κ → α → List (κ × α)
  | [], k, v => [(k, v)]
  | (k', v') :: rest, k, v =>
    if k' == k then (k, v) :: rest else (k', v') :: insertKV rest k v

/-- Python `set.add`. -/
def setAdd (s : List String) (x : String) : List String :=
  if s.contains x then s else s ++ [x]

/-- Python `set(iterable)`. -/
def toSet (l : List String) : List String := l.foldl setAdd []

/-- Python `s.union(t)`. -/
def listUnion (s t : List String) : List String :=
  s ++ t.filter (fun x => !(s.contains x))

/-- Python `s.difference(t)` (absent elements are silently ignored). -/
def listDiff (s t : List String) : List String :=
  s.filter (fun x => !(t.contains x))

/-- Python `s.issubset(t)`. -/
def isSubsetL (s t : List String) : Bool := s.all (t.contains ·)

/-! ## Module-level constants of `papersplease.py` -/

def FIELDS_TO_STR : List (String × String) :=
  [("NAME", "name"), ("DOB", "date of birth"), ("SEX", "sex"),
   ("ID#", "ID number"), ("NATION", "nationality")]

def MISMATCH_FIELDS : List String := FIELDS_TO_STR.map Prod.fst

/-- Dates are `(year, month, day)` triples; `datetime` comparison at midnight
is lexicographic comparison of the triples. -/
abbrev Date := Nat × Nat × Nat

def TODAY : Date := (1982, 11, 22)

def COUNTRIES : List String :=
  ["arstotzka", "antegria", "impor", "kolechia", "obristan", "republia",
   "united federation"]

/-- `document[field] -> value`. -/
abbrev FieldMap := List (String × String)

/-- `Documents = Dict[str, Dict[str, str]]`, keyed by normalized title. -/
abbrev Documents := List (String × FieldMap)

/-! ## parse_document -/

/-- `title, data = entry.strip().split(': ')` — the tuple-unpacking step of one
line of `parse_document`.  Unpacking a list of length ≠ 2 raises a `ValueError`
whose message (as in CPython) does not mention the offending line. -/
def splitFieldLine (entry : String) : Except String (String × String) :=
  match sSplitOn (sTrim entry) ": " with
  | [title, data] => .ok (title, data)
  | parts =>
    .error (if parts.length < 2 then "not enough values to unpack (expected 2, got 1)"
            else "too many values to unpack (expected 2)")

def parseDocAux : List String → FieldMap → Except String FieldMap
  | [], parsed => .ok parsed
  | entry :: rest, parsed =>
    match splitFieldLine entry with
    | .ok (title, data) => parseDocAux rest (insertKV parsed title data)
    | .error msg => .error msg

/-- `parse_document`: split on newlines, each line `"KEY: value"`; a raised
`ValueError` is `.error`, and no field map is produced in that case. -/
def parse_document (document : String) : Except String FieldMap :=
  parseDocAux (sSplitOn document "\n") []

/-! ## check_mismatches, check_expirations, get_name, get_nationality -/

/-- The distinct values of `field` across all documents
(`set(document[field] for document in documents.values() if field in document)`). -/
def valuesOf (documents : Documents) (field : String) : List String :=
  toSet (documents.filterMap (fun d => lookupKV d.2 field))

/-- `check_mismatches` over the fixed field list. -/
def check_mismatches (documents : Documents) : List (String × List String) :=
  MISMATCH_FIELDS.filterMap (fun field =>
    let values := valuesOf documents field
    if values.length > 1 then some (field, values) else none)

/-- Python `int(...)`-free digit parsing used by the `strptime` model. -/
def natOfDigits (l : List Char) : Nat :=
  l.foldl (fun n c => n * 10 + (c.toNat - 48)) 0

def isLeapYear (y : Nat) : Bool := (y % 4 == 0 && y % 100 != 0) || y % 400 == 0

def daysInMonth (y m : Nat) : Nat :=
  if m == 2 then (if isLeapYear y then 29 else 28)
  else if m == 4 || m == 6 || m == 9 || m == 11 then 30
  else 31

/-- `datetime.strptime(s, "%Y.%m.%d")`: exactly four digits for `%Y`, one or
two digits for `%m` (1–12) and `%d` (1–31, bounded by the real month length);
any other shape raises, modelled as `none`. -/
def strptimeYMD (s : String) : Option Date :=
  match sSplitOn s "." with
  | [ys, ms, ds] =>
    if ys.data.all Char.isDigit && ys.data.length == 4 &&
       ms.data.all Char.isDigit && decide (0 < ms.data.length) && ms.data.length ≤ 2 &&
       ds.data.all Char.isDigit && decide (0 < ds.data.length) && ds.data.length ≤ 2 then
      let y := natOfDigits ys.data
      let m := natOfDigits ms.data
      let d := natOfDigits ds.data
      if 1 ≤ y && 1 ≤ m && m ≤ 12 && 1 ≤ d && d ≤ daysInMonth y m then
        some (y, m, d)
      else none
    else none
  | _ => none

/-- Strict `datetime <` (lexicographic on year, month, day). -/
def dateLt (a b : Date) : Bool :=
  a.1 < b.1 || (a.1 == b.1 && (a.2.1 < b.2.1 || (a.2.1 == b.2.1 && a.2.2 < b.2.2)))

/-- `check_expirations`: titles (in document order) whose truthy `EXP` field
parses strictly earlier than `check_date`; a `strptime` failure raises,
modelled as `none`. -/
def check_expirations : Documents → Date → Option (List String)
  | [], _ => some []
  | (document_title, document) :: rest, check_date =>
    match lookupKV document "EXP" with
    | some date =>
      if date == "" then check_expirations rest check_date
      else
        match strptimeYMD date with
        | none => none
        | some d =>
          if dateLt d check_date then
            (check_expirations rest check_date).map (document_title :: ·)
          else check_expirations rest check_date
    | none => check_expirations rest check_date

/-- Shared body of `get_name`/`get_nationality`: iterate the documents, keep
the last `get(field)` result, stop at the first truthy value. -/
def firstTruthyField (field : String) : Documents → Option String
  | [] => none
  | [d] => lookupKV d.2 field
  | d :: rest =>
    match lookupKV d.2 field with
    | some v => if v == "" then firstTruthyField field rest else some v
    | none => firstTruthyField field rest

def get_name (documents : Documents) : Option String := firstTruthyField "NAME" documents

def get_nationality (documents : Documents) : Option String :=
  firstTruthyField "NATION" documents

/-! ## Inspector state -/

/-- `defaultdict(set)` keyed by Python values that are either a lower-cased
category string or `None` (which `inspect` can use as a key). -/
abbrev PolicyMap := List (Option String × List String)

structure Inspector where
  allowed_countries : List String
  required_documents : PolicyMap
  required_vaccinations : PolicyMap
  wanted_criminals : List String
  work_pass_required : Bool
deriving DecidableEq

/-- `Inspector.__init__`. -/
def initInspector : Inspector :=
  { allowed_countries := ["arstotzka"], required_documents := [],
    required_vaccinations := [], wanted_criminals := [], work_pass_required := false }

/-- The set a `defaultdict(set)` associates to `k` (empty when absent). -/
def lookupD (m : PolicyMap) (k : Option String) : List String :=
  (lookupKV m k).getD []

/-- `defaultdict` subscript access: returns the stored set and the map after
the access (a missing key is inserted, bound to the empty set). -/
def ddGet (m : PolicyMap) (k : Option String) : List String × PolicyMap :=
  match lookupKV m k with
  | some v => (v, m)
  | none => ([], m ++ [(k, [])])

/-! ## receive_bulletin -/

/-- Expansion text for the `Foreigners` macro (all known nations but the home
nation, in the model's fixed order; Python's set order is unspecified). -/
def foreignersRep : String :=
  "Citizens of " ++ sJoin ", " (COUNTRIES.filter (fun c => !(c == "arstotzka")))

/-- Expansion text for the `Entrants` macro (all known nations). -/
def entrantsRep : String := "Citizens of " ++ sJoin ", " COUNTRIES

/-- `for category in categories: m[category.lower()].add(x)`. -/
def addToDD : PolicyMap → List String → String → PolicyMap
  | m, [], _ => m
  | m, category :: rest, x =>
    let p := ddGet m (some (sToLower category))
    addToDD (insertKV p.2 (some (sToLower category)) (setAdd p.1 x)) rest x

/-- `for category in categories: m[category.lower()].remove(x)`; removing an
absent element raises `KeyError`, keeping the mutations already made. -/
def removeFromDD : PolicyMap → List String → String → PolicyMap × Option String
  | m, [], _ => (m, none)
  | m, category :: rest, x =>
    let p := ddGet m (some (sToLower category))
    if p.1.contains x then
      removeFromDD (insertKV p.2 (some (sToLower category)) (p.1.erase x)) rest x
    else
      (p.2, some ("KeyError: " ++ x))

/-- The loop body of `Inspector.receive_bulletin` for a single bulletin line.
The second component is the exception raised, if any; state mutations made
before the exception are kept, exactly as for a Python object. -/
def applyEntry (ins : Inspector) (entry0 : String) : Inspector × Option String :=
  let entryA := sTrim entry0
  let entryB := if sContains entryA "Foreigners" then
                  sReplace entryA "Foreigners" foreignersRep else entryA
  let entry := if sContains entryB "Entrants" then
                  sReplace entryB "Entrants" entrantsRep else entryB
  if sStartsWith entry "Allow citizens of " then
    let countries := toSet ((sSplitOn (pySliceFrom entry (sLen "Allow citizens of " : Int)) ", ").map sToLower)
    ({ ins with allowed_countries := listUnion ins.allowed_countries countries }, none)
  else if sStartsWith entry "Deny citizens of " then
    let countries := toSet ((sSplitOn (pySliceFrom entry (sLen "Deny citizens of " : Int)) ", ").map sToLower)
    ({ ins with allowed_countries := listDiff ins.allowed_countries countries }, none)
  else if sStartsWith entry "Wanted by the State: " then
    match sSplitOn (pySliceFrom entry (sLen "Wanted by the State: " : Int)) " " with
    | [first, last] =>
      ({ ins with wanted_criminals := setAdd ins.wanted_criminals (last ++ ", " ++ first) }, none)
    | _ => (ins, some "ValueError: cannot unpack name")
  else if sContains entry "no longer require" then
    let e := sFindI entry " no longer require"
    if sContains entry "Citizens of " then
      let beg := sFindI entry "of " + 3
      let categories := toSet (sSplitOn (pySlice entry beg e) ", ")
      let requirement := pySliceFrom entry (sFindI entry " require" + (sLen " require " : Int))
      if sContains requirement "vaccination" then
        let disease := sJoin " " ((sSplitOn requirement " ").dropLast)
        let p := removeFromDD ins.required_vaccinations categories disease
        ({ ins with required_vaccinations := p.1 }, p.2)
      else
        let p := removeFromDD ins.required_documents categories requirement
        ({ ins with required_documents := p.1 }, p.2)
    else if sContains entry "Workers" then
      ({ ins with work_pass_required := false }, none)
    else
      (ins, some ("Cannot parse entry " ++ entry ++ "."))
  else if sContains entry "require" then
    let e := sFindI entry " require"
    if sContains entry "Citizens of " then
      let beg := sFindI entry "of " + 3
      let categories := toSet (sSplitOn (pySlice entry beg e) ", ")
      let requirement := pySliceFrom entry (sFindI entry " require" + (sLen " require " : Int))
      if sContains requirement "vaccination" then
        let disease := sJoin " " ((sSplitOn requirement " ").dropLast)
        ({ ins with required_vaccinations := addToDD ins.required_vaccinations categories disease }, none)
      else
        ({ ins with required_documents := addToDD ins.required_documents categories requirement }, none)
    else if sContains entry "Workers" then
      ({ ins with work_pass_required := true }, none)
    else
      (ins, some ("Cannot parse entry " ++ entry ++ "."))
  else
    (ins, some ("Could not parse entry : " ++ entry))

/-- Apply bulletin lines in order; the first exception halts processing and is
reported, keeping all mutations already performed. -/
def processEntries : Inspector → List String → Inspector × Option String
  | ins, [] => (ins, none)
  | ins, entry :: rest =>
    match applyEntry ins entry with
    | (ins1, none) => processEntries ins1 rest
    | (ins1, some msg) => (ins1, some msg)

/-- `Inspector.receive_bulletin`. -/
def receive_bulletin (ins : Inspector) (bulletin : String) : Inspector × Option String :=
  processEntries ins (sSplitOn bulletin "\n")

/-! ## Inspector.inspect

The decision result is `Option String`: `some s` is the returned decision
string, `none` models an exception escaping `inspect` (`KeyError` on a missing
document field, or `ValueError` from `strptime`).  The function also returns
the inspector state after the call, because the `defaultdict` subscripts at
lines 197, 212 and 239 of the source can insert keys. -/

/-- The entrant-parsing dict comprehension at the top of `inspect`. -/
def parseEntrantAux : List (String × String) → Documents → Except String Documents
  | [], acc => .ok acc
  | (document_title, document) :: rest, acc =>
    match parse_document document with
    | .ok parsed =>
      parseEntrantAux rest (insertKV acc (sToLower (sReplace document_title "_" " ")) parsed)
    | .error msg => .error msg

def parse_entrant (entrant : List (String × String)) : Except String Documents :=
  parseEntrantAux entrant []

/-- Python `x in documents` on the normalized-title keys. -/
def hasDoc (documents : Documents) (title : String) : Bool :=
  (lookupKV documents title).isSome

/-- Python `value in pythonSet` where `value` may be `None`. -/
def optMem : Option String → List String → Bool
  | some s, l => l.contains s
  | none, _ => false

/-- `if nationality: nationality = nationality.lower()`. -/
def lowerNat : Option String → Option String
  | some s => if s == "" then some s else some (sToLower s)
  | none => none

/-- `set().union(*self.required_documents.values())`. -/
def unionAll (m : PolicyMap) : List String :=
  m.foldl (fun acc p => listUnion acc p.2) []

/-- The required-document loop: first required type that is not the literal
`"access permit"` and whose lower-cased name is not a document title. -/
def findMissing (required : List String) (documents : Documents) : Option String :=
  required.find? (fun rd => !(rd == "access permit") && !(hasDoc documents (sToLower rd)))

/-- The final greeting/farewell of `inspect`. -/
def farewell (nationality : Option String) : Option String :=
  if nationality == some "arstotzka" then some "Glory to Arstotzka."
  else some "Cause no trouble."

/-- Vaccination check (stage at line 239) followed by the farewell. -/
def vaccinationStage (ins : Inspector) (documents : Documents)
    (nationality : Option String) : Option String × Inspector :=
  let p := ddGet ins.required_vaccinations nationality
  let ins1 := { ins with required_vaccinations := p.2 }
  if p.1.isEmpty then (farewell nationality, ins1)
  else
    match lookupKV documents "certificate of vaccination" with
    | none => (some "Entry denied: missing required certificate of vaccination.", ins1)
    | some cert =>
      match lookupKV cert "VACCINES" with
      | none => (none, ins1)
      | some vs =>
        let vaccinations := toSet (sSplitOn vs ", ")
        if !(isSubsetL p.1 vaccinations) then
          (some "Entry denied: missing required vaccination.", ins1)
        else (farewell nationality, ins1)

/-- Allowed-nationality check (line 235) and everything after it. -/
def bannedOnward (ins : Inspector) (documents : Documents)
    (nationality : Option String) : Option String × Inspector :=
  if !(optMem nationality ins.allowed_countries) then
    (some "Entry denied: citizen of banned nation.", ins)
  else vaccinationStage ins documents nationality

/-- Access-permit chain (line 211) and everything after it. -/
def accessOnward (ins : Inspector) (documents : Documents)
    (nationality : Option String) : Option String × Inspector :=
  if !(nationality == some "arstotzka") then
    let p := ddGet ins.required_documents nationality
    let ins1 := { ins with required_documents := p.2 }
    if p.1.contains "access permit" then
      match lookupKV documents "access permit" with
      | none =>
        if hasDoc documents "grant of asylum" then bannedOnward ins1 documents nationality
        else
          match lookupKV documents "diplomatic authorization" with
          | some dipl =>
            match lookupKV dipl "ACCESS" with
            | none => (none, ins1)
            | some acc =>
              let authorized := toSet (sSplitOn acc ", ")
              if !(authorized.contains "Arstotzka") then
                (some "Entry denied: invalid diplomatic authorization.", ins1)
              else bannedOnward ins1 documents nationality
          | none => (some "Entry denied: missing required access permit.", ins1)
      | some permit =>
        if ins1.work_pass_required then
          match lookupKV permit "PURPOSE" with
          | none => (none, ins1)
          | some purpose =>
            if purpose == "WORK" && !(hasDoc documents "work pass") then
              (some "Entry denied: missing required work pass.", ins1)
            else bannedOnward ins1 documents nationality
        else bannedOnward ins1 documents nationality
    else bannedOnward ins1 documents nationality
  else bannedOnward ins documents nationality

/-- Expiration check (line 204) and everything after it. -/
def expirationOnward (ins : Inspector) (documents : Documents)
    (nationality : Option String) : Option String × Inspector :=
  match check_expirations documents TODAY with
  | none => (none, ins)
  | some [] => accessOnward ins documents nationality
  | some (t :: _) =>
    (some ("Entry denied: " ++ sReplace t "_" " " ++ " expired."), ins)

/-- Required-document check (line 194) and everything after it. -/
def requiredDocsOnward (ins : Inspector) (documents : Documents)
    (nationality : Option String) : Option String × Inspector :=
  match nationality with
  | none =>
    match findMissing (unionAll ins.required_documents) documents with
    | some t => (some ("Entry denied: missing required " ++ t ++ "."), ins)
    | none => expirationOnward ins documents nationality
  | some _ =>
    let p := ddGet ins.required_documents nationality
    let ins1 := { ins with required_documents := p.2 }
    match findMissing p.1 documents with
    | some t => (some ("Entry denied: missing required " ++ t ++ "."), ins1)
    | none => expirationOnward ins1 documents nationality

/-- `Inspector.inspect`. -/
def inspect (ins : Inspector) (entrant : List (String × String)) :
    Option String × Inspector :=
  match parse_entrant entrant with
  | .error _ => (none, ins)
  | .ok documents =>
    match check_mismatches documents with
    | (field, _) :: _ =>
      ((lookupKV FIELDS_TO_STR field).map
        (fun lbl => "Detainment: " ++ lbl ++ " mismatch."), ins)
    | [] =>
      if optMem (get_name documents) ins.wanted_criminals then
        (some "Detainment: Entrant is a wanted criminal.", ins)
      else
        requiredDocsOnward ins documents (lowerNat (get_nationality documents))

/-! ## Derived predicates used by the theorems -/

/-- Frame relation on inspector states: all policy content is unchanged — the
requirement maps answer the same set for every key — though the maps may have
gained keys bound to the empty set. -/
def Preserved (a b : Inspector) : Prop :=
  b.allowed_countries = a.allowed_countries ∧
  b.wanted_criminals = a.wanted_criminals ∧
  b.work_pass_required = a.work_pass_required ∧
  (∀ k, lookupD b.required_documents k = lookupD a.required_documents k) ∧
  (∀ k, lookupD b.required_vaccinations k = lookupD a.required_vaccinations k)

/-- The fixed decision-template vocabulary of the spec (§4.4/§7); the
missing-required templates cover the access permit, work pass and certificate
of vaccination messages. -/
def decisionVocabulary (s : String) : Prop :=
  (∃ lbl, lbl ∈ ["name", "date of birth", "sex", "ID number", "nationality"] ∧
      s = "Detainment: " ++ lbl ++ " mismatch.") ∨
  s = "Detainment: Entrant is a wanted criminal." ∨
  (∃ t, s = "Entry denied: missing required " ++ t ++ ".") ∨
  (∃ t, s = "Entry denied: " ++ t ++ " expired.") ∨
  s = "Entry denied: invalid diplomatic authorization." ∨
  s = "Entry denied: citizen of banned nation." ∨
  s = "Entry denied: missing required vaccination." ∨
  s = "Glory to Arstotzka." ∨
  s = "Cause no trouble."

/-! ## Helper lemmas -/

theorem ddGet_fst (m : PolicyMap) (k : Option String) : (ddGet m k).1 = lookupD m k := by
  unfold ddGet lookupD
  cases h : lookupKV m k <;> simp [h]

theorem lookupKV_append_single (m : PolicyMap) (k j : Option String) :
    lookupD (m ++ [(k, [])]) j = lookupD m j := by
  induction m with
  | nil =>
    unfold lookupD lookupKV
    by_cases h : k == j <;> simp [h, lookupKV]
  | cons p rest ih =>
    unfold lookupD lookupKV
    by_cases h : p.1 == j
    · simp [h]
    · simpa [h, lookupD] using ih

theorem ddGet_preserves (m : PolicyMap) (k j : Option String) :
    lookupD (ddGet m k).2 j = lookupD m j := by
  unfold ddGet
  cases h : lookupKV m k with
  | some v => simp
  | none => simpa using lookupKV_append_single m k j

theorem contains_append_single (s : List String) (x : String) :
    (s ++ [x]).contains x = true := by
  induction s with
  | nil => simp
  | cons a as ih => simp [ih]

/-- Evaluating `applyEntry` on the literal line `"Allow citizens of Obristan"`. -/
theorem applyEntry_allow_obristan (ins : Inspector) :
    applyEntry ins "Allow citizens of Obristan" =
      ({ ins with allowed_countries := listUnion ins.allowed_countries ["obristan"] },
       none) := rfl

theorem listUnion_single_idem (s : List String) (x : String) :
    listUnion (listUnion s [x]) [x] = listUnion s [x] := by
  have hx : (listUnion s [x]).contains x = true := by
    by_cases h : s.contains x = true
    · simp [listUnion, h]
    · rw [Bool.not_eq_true] at h
      simp [listUnion, h, contains_append_single]
  simp [listUnion, hx]

/-! ## Claims -/

/-- Claim C8: applying the bulletin line `"Allow citizens of Obristan"` twice
yields the same `allowed_countries` as applying it once, from every starting
inspector state. -/
theorem C8_allow_idempotent (ins : Inspector) :
    ((applyEntry (applyEntry ins "Allow citizens of Obristan").1
        "Allow citizens of Obristan").1).allowed_countries =
      ((applyEntry ins "Allow citizens of Obristan").1).allowed_countries := by
  rw [applyEntry_allow_obristan ins]
  rw [applyEntry_allow_obristan]
  exact listUnion_single_idem ins.allowed_countries "obristan"

/-- Claim C4, counterexample: the directive `"Deny citizens of Obristan"`
applied to the initial state (where `"obristan"` is not allowed) succeeds with
no error and leaves the state unchanged — a silent no-op, contradicting the
claim that every removal of an absent entry is an error. -/
theorem C4_counterexample :
    applyEntry initInspector "Deny citizens of Obristan" = (initInspector, none) := by
  decide

/-- Claim C4 (amended): `UnrequireDocument`/`UnrequireVaccination` on an entry
absent from the category's set raise a `KeyError` (both go through
`removeFromDD`), but `DenyCountries` is Python set difference: total, never an
error, and removing an absent country leaves `allowed_countries` unchanged. -/
theorem C4_amended :
    (∀ (m : PolicyMap) (category x : String),
        (lookupD m (some (sToLower category))).contains x = false →
        (removeFromDD m [category] x).2.isSome = true) ∧
    (∀ (allowed : List String) (c : String),
        allowed.contains c = false → listDiff allowed [c] = allowed) := by
  constructor
  · intro m category x h
    have hfst := ddGet_fst m (some (sToLower category))
    simp only [removeFromDD, hfst, h]
    simp
  · intro allowed c h
    have hc : c ∉ allowed := by
      intro hmem
      rw [← List.elem_iff] at hmem
      simp [List.contains] at h
      exact absurd hmem (by simp [h])
    unfold listDiff
    rw [List.filter_eq_self]
    intro a ha
    have : a ≠ c := fun hac => hc (hac ▸ ha)
    simp [this]

/-- Witness for the amended claim C4 at concrete inputs. -/
theorem C4_amended_witness :
    (removeFromDD [(some "obristan", ["passport"])] ["Obristan"] "ID card").2.isSome = true ∧
    listDiff ["arstotzka"] ["obristan"] = ["arstotzka"] :=
  ⟨C4_amended.1 [(some "obristan", ["passport"])] "Obristan" "ID card" (by decide),
   C4_amended.2 ["arstotzka"] "obristan" (by decide)⟩

/-- Claim C5: when a bulletin line fails, processing halts — the lines after
the failing one are never applied — and the state is the one produced by the
earlier lines (plus the failing line's partial work), with no rollback. -/
theorem C5_partial_application (ins s1 s2 : Inspector) (ls1 : List String)
    (entry : String) (ls2 : List String) (msg : String)
    (h1 : processEntries ins ls1 = (s1, none))
    (h2 : applyEntry s1 entry = (s2, some msg)) :
    processEntries ins (ls1 ++ entry :: ls2) = (s2, some msg) := by
  induction ls1 generalizing ins with
  | nil =>
    simp only [processEntries] at h1
    have : ins = s1 := congrArg Prod.fst h1
    subst this
    simp only [List.nil_append, processEntries, h2]
  | cons a tl ih =>
    rcases hp : applyEntry ins a with ⟨i1, e1⟩
    cases e1 with
    | none =>
      simp only [List.cons_append, processEntries, hp] at h1 ⊢
      exact ih i1 h1
    | some m =>
      simp only [processEntries, hp] at h1
      exact absurd (congrArg Prod.snd h1) (by simp)

/-- Witness for claim C5: a concrete three-line bulletin whose middle line is
unparseable applies the first line, reports the failure, and never applies the
third line. -/
theorem C5_partial_application_witness :
    processEntries initInspector
      (["Allow citizens of Obristan"] ++ "gibberish" :: ["Allow citizens of Kolechia"]) =
    ({ allowed_countries := ["arstotzka", "obristan"], required_documents := [],
       required_vaccinations := [], wanted_criminals := [],
       work_pass_required := false }, some "Could not parse entry : gibberish") :=
  C5_partial_application initInspector
    { allowed_countries := ["arstotzka", "obristan"], required_documents := [],
      required_vaccinations := [], wanted_criminals := [], work_pass_required := false }
    { allowed_countries := ["arstotzka", "obristan"], required_documents := [],
      required_vaccinations := [], wanted_criminals := [], work_pass_required := false }
    ["Allow citizens of Obristan"] "gibberish" ["Allow citizens of Kolechia"]
    "Could not parse entry : gibberish" (by decide) (by decide)

/-- Claim C1, counterexample: wanted list `["Doe, John"]`, sole document
`NAME: John Doe` — the claim says this entrant is detained as a wanted
criminal, but the code compares the unreformatted name `"John Doe"` against
the stored `"Doe, John"`, finds no match, and admits the entrant. -/
theorem C1_counterexample :
    (inspect { initInspector with wanted_criminals := ["Doe, John"] }
        [("passport", "NAME: John Doe\nNATION: Arstotzka")]).1 =
      some "Glory to Arstotzka." ∧
    (inspect { initInspector with wanted_criminals := ["Doe, John"] }
        [("passport", "NAME: John Doe\nNATION: Arstotzka")]).1 ≠
      some "Detainment: Entrant is a wanted criminal." := by
  constructor <;> decide

/-- Claim C1 (amended): for a mismatch-free entrant, the wanted check takes
the NAME value of the first NAME-bearing document and tests it for membership
in `wanted_criminals` exactly as written — no reformatting — so an entrant is
detained precisely when that raw NAME value (which must therefore already read
`"Last, First"`) is on the wanted list. -/
theorem C1_amended (ins : Inspector) (entrant : List (String × String))
    (documents : Documents) (n : String)
    (hparse : parse_entrant entrant = .ok documents)
    (hmis : check_mismatches documents = [])
    (hname : get_name documents = some n)
    (hwanted : ins.wanted_criminals.contains n = true) :
    (inspect ins entrant).1 = some "Detainment: Entrant is a wanted criminal." := by
  have hw : n ∈ ins.wanted_criminals := by simpa using hwanted
  simp [inspect, hparse, hmis, optMem, hname, hw]

/-- Witness for the amended claim C1: a document whose NAME field already
reads `"Doe, John"` is detained. -/
theorem C1_amended_witness :
    (inspect { initInspector with wanted_criminals := ["Doe, John"] }
        [("passport", "NAME: Doe, John\nNATION: Arstotzka")]).1 =
      some "Detainment: Entrant is a wanted criminal." :=
  C1_amended _ _ [("passport", [("NAME", "Doe, John"), ("NATION", "Arstotzka")])]
    "Doe, John" rfl (by decide) (by decide) (by decide)

/-- Claim C6: if all of NAME, DOB, SEX, ID# have at most one distinct value
across the entrant's documents and NATION has more than one, `inspect` returns
exactly the nationality-mismatch detainment (NATION is last in the fixed field
order, so it is the first — and only — mismatch reported). -/
theorem C6_nation_mismatch (ins : Inspector) (entrant : List (String × String))
    (documents : Documents)
    (hparse : parse_entrant entrant = .ok documents)
    (hNAME : (valuesOf documents "NAME").length ≤ 1)
    (hDOB : (valuesOf documents "DOB").length ≤ 1)
    (hSEX : (valuesOf documents "SEX").length ≤ 1)
    (hID : (valuesOf documents "ID#").length ≤ 1)
    (hNATION : 1 < (valuesOf documents "NATION").length) :
    (inspect ins entrant).1 = some "Detainment: nationality mismatch." := by
  have h1 : ¬ (valuesOf documents "NAME").length > 1 := by omega
  have h2 : ¬ (valuesOf documents "DOB").length > 1 := by omega
  have h3 : ¬ (valuesOf documents "SEX").length > 1 := by omega
  have h4 : ¬ (valuesOf documents "ID#").length > 1 := by omega
  have hm : check_mismatches documents = [("NATION", valuesOf documents "NATION")] := by
    simp [check_mismatches, MISMATCH_FIELDS, FIELDS_TO_STR, h1, h2, h3, h4, hNATION]
  have hlk : lookupKV FIELDS_TO_STR "NATION" = some "nationality" := rfl
  simp [inspect, hparse, hm, hlk]

/-- Witness for claim C6: two documents agreeing everywhere except NATION. -/
theorem C6_nation_mismatch_witness :
    (inspect initInspector
        [("passport", "NATION: Arstotzka"), ("ID_card", "NATION: Obristan")]).1 =
      some "Detainment: nationality mismatch." :=
  C6_nation_mismatch initInspector _
    [("passport", [("NATION", "Arstotzka")]), ("id card", [("NATION", "Obristan")])]
    rfl (by decide) (by decide) (by decide) (by decide) (by decide)

/-- If no document carries the field, the first-truthy-field scan returns
`None`. -/
theorem firstTruthyField_none (field : String) (documents : Documents)
    (h : ∀ d ∈ documents, lookupKV d.2 field = none) :
    firstTruthyField field documents = none := by
  induction documents with
  | nil => rfl
  | cons d rest ih =>
    cases rest with
    | nil =>
      have hd := h d (by simp)
      simp [firstTruthyField, hd]
    | cons e tl =>
      have hd := h d (by simp)
      simp only [firstTruthyField, hd]
      exact ih (fun x hx => h x (List.mem_cons_of_mem _ hx))

/-- Claim C7: with no NATION field anywhere, the required-document stage draws
on the union of `required_documents` over all categories, skips the literal
type `"access permit"`, and denies for the first remaining required type with
no matching normalized document title. -/
theorem C7_required_docs_union (ins : Inspector) (entrant : List (String × String))
    (documents : Documents) (t : String)
    (hparse : parse_entrant entrant = .ok documents)
    (hmis : check_mismatches documents = [])
    (hwanted : optMem (get_name documents) ins.wanted_criminals = false)
    (hnonation : ∀ d ∈ documents, lookupKV d.2 "NATION" = none)
    (hmissing : findMissing (unionAll ins.required_documents) documents = some t) :
    (inspect ins entrant).1 = some ("Entry denied: missing required " ++ t ++ ".") := by
  have hnat : get_nationality documents = none :=
    firstTruthyField_none "NATION" documents hnonation
  simp [inspect, hparse, hmis, hwanted, get_nationality] at *
  simp [inspect, hparse, hmis, hwanted, requiredDocsOnward, hnat, get_nationality,
        lowerNat, hmissing]

/-- Witness for claim C7: required documents registered for two categories,
an entrant without NATION, and the union's first entry missing. -/
theorem C7_required_docs_union_witness :
    (inspect { initInspector with
        required_documents := [(some "obristan", ["passport"]),
                               (some "kolechia", ["ID card"])] }
        [("receipt", "SEX: M")]).1 =
      some ("Entry denied: missing required " ++ "passport" ++ ".") :=
  C7_required_docs_union _ _ [("receipt", [("SEX", "M")])] "passport"
    rfl (by decide) (by decide) (by decide) (by decide)

/-- Claim C9, counterexample: the line `"NAME John"` has no `": "` separator;
`parse_document` fails, but with CPython's fixed tuple-unpacking `ValueError`
message, which does not name (or even contain) the offending line. -/
theorem C9_counterexample :
    parse_document "NAME John" =
      .error "not enough values to unpack (expected 2, got 1)" ∧
    sContains "not enough values to unpack (expected 2, got 1)" "NAME John" = false :=
  ⟨rfl, by decide⟩

/-- A line splitting into a single piece on `": "` makes the unpacking step
fail with the fixed not-enough-values message. -/
theorem splitFieldLine_bad (entry : String)
    (hbad : (sSplitOn (sTrim entry) ": ").length = 1) :
    splitFieldLine entry = .error "not enough values to unpack (expected 2, got 1)" := by
  unfold splitFieldLine
  rcases hsp : sSplitOn (sTrim entry) ": " with - | ⟨a, - | ⟨b, tl⟩⟩
  · rw [hsp] at hbad; simp at hbad
  · simp
  · rw [hsp] at hbad; simp at hbad

/-- Any error produced by the unpacking step is one of CPython's two fixed
unpacking messages. -/
theorem splitFieldLine_error_msg (entry msg : String)
    (h : splitFieldLine entry = .error msg) :
    msg = "not enough values to unpack (expected 2, got 1)" ∨
    msg = "too many values to unpack (expected 2)" := by
  unfold splitFieldLine at h
  rcases hsp : sSplitOn (sTrim entry) ": " with - | ⟨a, - | ⟨b, tl⟩⟩ <;> rw [hsp] at h
  · simp at h
    exact Or.inl h.symm
  · simp at h
    exact Or.inl h.symm
  · cases tl with
    | nil => simp at h
    | cons c tl2 =>
      simp at h
      exact Or.inr h.symm

/-- `parse_document`'s worker fails (producing no field map) whenever some
line lacks the separator, always with one of the two fixed messages. -/
theorem parseDocAux_error (entries : List String) (line : String)
    (hline : line ∈ entries)
    (hbad : (sSplitOn (sTrim line) ": ").length = 1) :
    ∀ parsed, ∃ msg, parseDocAux entries parsed = .error msg ∧
      (msg = "not enough values to unpack (expected 2, got 1)" ∨
       msg = "too many values to unpack (expected 2)") := by
  induction entries with
  | nil => cases hline
  | cons e rest ih =>
    intro parsed
    cases hse : splitFieldLine e with
    | error msg =>
      exact ⟨msg, by simp [parseDocAux, hse], splitFieldLine_error_msg e msg hse⟩
    | ok td =>
      obtain ⟨t, d⟩ := td
      rcases List.mem_cons.mp hline with rfl | hmem
      · rw [splitFieldLine_bad line hbad] at hse
        cases hse
      · simp only [parseDocAux, hse]
        exact ih hmem (insertKV parsed t d)

/-- Claim C9 (amended): a raw document text with a separator-free line makes
`parse_document` fail — no field map is produced — but the `ValueError` raised
carries one of CPython's two fixed unpacking messages, independent of the
offending line, rather than naming that line. -/
theorem C9_amended (document line : String)
    (hline : line ∈ sSplitOn document "\n")
    (hbad : (sSplitOn (sTrim line) ": ").length = 1) :
    ∃ msg, parse_document document = .error msg ∧
      (msg = "not enough values to unpack (expected 2, got 1)" ∨
       msg = "too many values to unpack (expected 2)") :=
  parseDocAux_error (sSplitOn document "\n") line hline hbad []

/-- Witness for the amended claim C9 at a concrete two-line document. -/
theorem C9_amended_witness :
    ∃ msg, parse_document "NAME: John Doe\nNATION Arstotzka" = .error msg ∧
      (msg = "not enough values to unpack (expected 2, got 1)" ∨
       msg = "too many values to unpack (expected 2)") :=
  C9_amended "NAME: John Doe\nNATION Arstotzka" "NATION Arstotzka"
    (by decide) (by decide)

/-- Everything `check_expirations` reports carries an `EXP` field whose parsed
date is strictly earlier than the check date. -/
theorem check_expirations_strict (documents : Documents) (cd : Date) (t : String) :
    ∀ l, check_expirations documents cd = some l → t ∈ l →
      ∃ d s dt, (t, d) ∈ documents ∧ lookupKV d "EXP" = some s ∧
        strptimeYMD s = some dt ∧ dateLt dt cd = true := by
  induction documents with
  | nil =>
    intro l hce ht
    simp [check_expirations] at hce
    subst hce
    cases ht
  | cons p rest ih =>
    intro l hce ht
    obtain ⟨title, doc⟩ := p
    simp only [check_expirations] at hce
    split at hce
    next date hEXP =>
      split at hce
      · obtain ⟨d, s, dt, hm, hl, hp, hlt⟩ := ih l hce ht
        exact ⟨d, s, dt, List.mem_cons_of_mem _ hm, hl, hp, hlt⟩
      · split at hce
        next hsp => cases hce
        next dd hsp =>
          split at hce
          next hlt =>
            rcases Option.map_eq_some'.mp hce with ⟨l', hl', rfl⟩
            rcases List.mem_cons.mp ht with rfl | hmem
            · exact ⟨doc, date, dd, List.mem_cons_self _ _, hEXP, hsp, hlt⟩
            · obtain ⟨d, s, dt, hm, hl, hp, hlt'⟩ := ih l' hl' hmem
              exact ⟨d, s, dt, List.mem_cons_of_mem _ hm, hl, hp, hlt'⟩
          next hlt =>
            obtain ⟨d, s, dt, hm, hl, hp, hlt'⟩ := ih l hce ht
            exact ⟨d, s, dt, List.mem_cons_of_mem _ hm, hl, hp, hlt'⟩
    next hEXP =>
      obtain ⟨d, s, dt, hm, hl, hp, hlt⟩ := ih l hce ht
      exact ⟨d, s, dt, List.mem_cons_of_mem _ hm, hl, hp, hlt⟩

/-- Claim C10: the expiration stage reports a document only when its `EXP`
date parses strictly earlier than the reference date; `"1982.11.22"` parses to
exactly the reference date, is not strictly earlier, and a document bearing it
passes the stage. -/
theorem C10_expiration_strict :
    (∀ (documents : Documents) (l : List String) (t : String),
        check_expirations documents TODAY = some l → t ∈ l →
        ∃ d s dt, (t, d) ∈ documents ∧ lookupKV d "EXP" = some s ∧
          strptimeYMD s = some dt ∧ dateLt dt TODAY = true) ∧
    strptimeYMD "1982.11.22" = some TODAY ∧
    dateLt TODAY TODAY = false ∧
    check_expirations [("passport", [("EXP", "1982.11.22")])] TODAY = some [] := by
  refine ⟨?_, by decide, by decide, by decide⟩
  intro documents l t h1 h2
  exact check_expirations_strict documents TODAY t l h1 h2

/-- Witness for claim C10's universally quantified part at a genuinely expired
document. -/
theorem C10_expiration_strict_witness :
    ∃ d s dt, ("id card", d) ∈ ([("id card", [("EXP", "1980.01.01")])] : Documents) ∧
      lookupKV d "EXP" = some s ∧ strptimeYMD s = some dt ∧ dateLt dt TODAY = true :=
  C10_expiration_strict.1 [("id card", [("EXP", "1980.01.01")])] ["id card"] "id card"
    (by decide) (by decide)

theorem preserved_refl (a : Inspector) : Preserved a a :=
  ⟨rfl, rfl, rfl, fun _ => rfl, fun _ => rfl⟩

theorem Preserved.trans {a b c : Inspector} (h1 : Preserved a b)
    (h2 : Preserved b c) : Preserved a c :=
  ⟨h2.1.trans h1.1, h2.2.1.trans h1.2.1, h2.2.2.1.trans h1.2.2.1,
   fun k => (h2.2.2.2.1 k).trans (h1.2.2.2.1 k),
   fun k => (h2.2.2.2.2 k).trans (h1.2.2.2.2 k)⟩

theorem preserved_ddGet_docs (ins : Inspector) (k : Option String) :
    Preserved ins { ins with required_documents := (ddGet ins.required_documents k).2 } :=
  ⟨rfl, rfl, rfl, fun j => ddGet_preserves _ k j, fun _ => rfl⟩

theorem preserved_ddGet_vaccs (ins : Inspector) (k : Option String) :
    Preserved ins { ins with required_vaccinations := (ddGet ins.required_vaccinations k).2 } :=
  ⟨rfl, rfl, rfl, fun _ => rfl, fun j => ddGet_preserves _ k j⟩

theorem vaccinationStage_preserves (ins : Inspector) (documents : Documents)
    (nationality : Option String) :
    Preserved ins (vaccinationStage ins documents nationality).2 := by
  unfold vaccinationStage
  dsimp only
  repeat' split
  all_goals exact preserved_ddGet_vaccs ins nationality

theorem bannedOnward_preserves (ins : Inspector) (documents : Documents)
    (nationality : Option String) :
    Preserved ins (bannedOnward ins documents nationality).2 := by
  unfold bannedOnward
  split
  · exact preserved_refl ins
  · exact vaccinationStage_preserves ins documents nationality

theorem accessOnward_preserves (ins : Inspector) (documents : Documents)
    (nationality : Option String) :
    Preserved ins (accessOnward ins documents nationality).2 := by
  unfold accessOnward
  dsimp only
  repeat' split
  all_goals
    first
      | exact bannedOnward_preserves ins documents nationality
      | exact preserved_ddGet_docs ins nationality
      | exact Preserved.trans (preserved_ddGet_docs ins nationality)
          (bannedOnward_preserves _ documents nationality)

theorem expirationOnward_preserves (ins : Inspector) (documents : Documents)
    (nationality : Option String) :
    Preserved ins (expirationOnward ins documents nationality).2 := by
  unfold expirationOnward
  split
  · exact preserved_refl ins
  · exact accessOnward_preserves ins documents nationality
  · exact preserved_refl ins

theorem requiredDocsOnward_preserves (ins : Inspector) (documents : Documents)
    (nationality : Option String) :
    Preserved ins (requiredDocsOnward ins documents nationality).2 := by
  cases nationality with
  | none =>
    unfold requiredDocsOnward
    dsimp only
    split
    · exact preserved_refl ins
    · exact expirationOnward_preserves ins documents none
  | some x =>
    unfold requiredDocsOnward
    dsimp only
    split
    · exact preserved_ddGet_docs ins (some x)
    · exact Preserved.trans (preserved_ddGet_docs ins (some x))
        (expirationOnward_preserves _ documents (some x))

/-- Claim C3, counterexample: inspecting the empty entrant against the fresh
inspector state mutates the state — the `defaultdict` subscript
`self.required_documents[nationality]` at line 212 inserts the key `None`
bound to the empty set, so the policy state is not identical after the call. -/
theorem C3_counterexample : (inspect initInspector []).2 ≠ initInspector := by
  decide

/-- Claim C3 (amended): `inspect` never changes `allowed_countries`,
`wanted_criminals`, `work_pass_required`, nor the set of requirements any
category maps to — but the two requirement maps may gain keys bound to the
empty set (the `defaultdict` accesses at lines 197, 212 and 239), so the key
sets of the mappings are not always identical before and after the call. -/
theorem C3_amended (ins : Inspector) (entrant : List (String × String)) :
    Preserved ins (inspect ins entrant).2 := by
  unfold inspect
  split
  · exact preserved_refl ins
  · split
    · exact preserved_refl ins
    · split
      · exact preserved_refl ins
      · exact requiredDocsOnward_preserves ins _ _

/-- Claim C2, counterexample: a parsing entrant (Obristani passport plus a
diplomatic authorization lacking an ACCESS field, with an access permit
required for Obristan) makes `inspect` raise a `KeyError` at
`document['ACCESS']` — modelled as `none` — instead of returning a decision
string. -/
theorem C2_counterexample :
    (inspect { initInspector with
        required_documents := [(some "obristan", ["access permit"])] }
        [("passport", "NATION: Obristan"),
         ("diplomatic_authorization", "ID#: X123")]).1 = none := by
  decide

theorem vocab_missing_required (t : String) :
    decisionVocabulary ("Entry denied: missing required " ++ t ++ ".") :=
  Or.inr (Or.inr (Or.inl ⟨t, rfl⟩))

theorem vocab_expired (t : String) :
    decisionVocabulary ("Entry denied: " ++ t ++ " expired.") :=
  Or.inr (Or.inr (Or.inr (Or.inl ⟨t, rfl⟩)))

theorem vocab_missing_cert :
    decisionVocabulary "Entry denied: missing required certificate of vaccination." := by
  have h : ("Entry denied: missing required " ++ "certificate of vaccination" ++ "."
      : String) = "Entry denied: missing required certificate of vaccination." := rfl
  exact h ▸ vocab_missing_required "certificate of vaccination"

theorem vocab_missing_ap :
    decisionVocabulary "Entry denied: missing required access permit." := by
  have h : ("Entry denied: missing required " ++ "access permit" ++ "." : String) =
      "Entry denied: missing required access permit." := rfl
  exact h ▸ vocab_missing_required "access permit"

theorem vocab_missing_wp :
    decisionVocabulary "Entry denied: missing required work pass." := by
  have h : ("Entry denied: missing required " ++ "work pass" ++ "." : String) =
      "Entry denied: missing required work pass." := rfl
  exact h ▸ vocab_missing_required "work pass"

theorem farewell_vocab (nationality : Option String) :
    ∃ s, farewell nationality = some s ∧ decisionVocabulary s := by
  unfold farewell
  split
  · exact ⟨_, rfl, by unfold decisionVocabulary; simp⟩
  · exact ⟨_, rfl, by unfold decisionVocabulary; simp⟩

theorem vaccinationStage_vocab (ins : Inspector) (documents : Documents)
    (nationality : Option String)
    (hVAC : ∀ cert, lookupKV documents "certificate of vaccination" = some cert →
        (lookupKV cert "VACCINES").isSome = true) :
    ∃ s, (vaccinationStage ins documents nationality).1 = some s ∧
      decisionVocabulary s := by
  unfold vaccinationStage
  dsimp only
  split
  · exact farewell_vocab nationality
  · split
    next => exact ⟨_, rfl, vocab_missing_cert⟩
    next cert hcert =>
      split
      next hv => exact absurd (hVAC cert hcert) (by simp [hv])
      next vs hv =>
        split
        · exact ⟨_, rfl, by unfold decisionVocabulary; simp⟩
        · exact farewell_vocab nationality

theorem bannedOnward_vocab (ins : Inspector) (documents : Documents)
    (nationality : Option String)
    (hVAC : ∀ cert, lookupKV documents "certificate of vaccination" = some cert →
        (lookupKV cert "VACCINES").isSome = true) :
    ∃ s, (bannedOnward ins documents nationality).1 = some s ∧
      decisionVocabulary s := by
  unfold bannedOnward
  split
  · exact ⟨_, rfl, by unfold decisionVocabulary; simp⟩
  · exact vaccinationStage_vocab ins documents nationality hVAC

theorem accessOnward_vocab (ins : Inspector) (documents : Documents)
    (nationality : Option String)
    (hACC : ∀ dipl, lookupKV documents "diplomatic authorization" = some dipl →
        (lookupKV dipl "ACCESS").isSome = true)
    (hPUR : ∀ permit, lookupKV documents "access permit" = some permit →
        (lookupKV permit "PURPOSE").isSome = true)
    (hVAC : ∀ cert, lookupKV documents "certificate of vaccination" = some cert →
        (lookupKV cert "VACCINES").isSome = true) :
    ∃ s, (accessOnward ins documents nationality).1 = some s ∧
      decisionVocabulary s := by
  unfold accessOnward
  dsimp only
  split
  · split
    · split
      next hap =>
        split
        · exact bannedOnward_vocab _ documents nationality hVAC
        · split
          next dipl hdipl =>
            split
            next hacc => exact absurd (hACC dipl hdipl) (by simp [hacc])
            next acc hacc =>
              split
              · exact ⟨_, rfl, by unfold decisionVocabulary; simp⟩
              · exact bannedOnward_vocab _ documents nationality hVAC
          next hdipl => exact ⟨_, rfl, vocab_missing_ap⟩
      next permit hap =>
        split
        · split
          next hpur => exact absurd (hPUR permit hap) (by simp [hpur])
          next purpose hpur =>
            split
            · exact ⟨_, rfl, vocab_missing_wp⟩
            · exact bannedOnward_vocab _ documents nationality hVAC
        · exact bannedOnward_vocab _ documents nationality hVAC
    · exact bannedOnward_vocab _ documents nationality hVAC
  · exact bannedOnward_vocab ins documents nationality hVAC

/-- If every truthy `EXP` value parses, the expiration scan raises nothing. -/
theorem check_expirations_total (documents : Documents) (cd : Date)
    (h : ∀ d ∈ documents, ∀ s, lookupKV d.2 "EXP" = some s → (s == "") = false →
        (strptimeYMD s).isSome = true) :
    (check_expirations documents cd).isSome = true := by
  induction documents with
  | nil => rfl
  | cons p rest ih =>
    obtain ⟨title, doc⟩ := p
    have ihr : (check_expirations rest cd).isSome = true :=
      ih (fun d hd => h d (List.mem_cons_of_mem _ hd))
    simp only [check_expirations]
    split
    next date hEXP =>
      split
      · exact ihr
      next hne =>
        have hps := h (title, doc) (List.mem_cons_self _ _) date hEXP
          (by simpa using hne)
        split
        next hsp => rw [hsp] at hps; simp at hps
        next dd hsp =>
          split
          · simpa using ihr
          · exact ihr
    next => exact ihr

theorem expirationOnward_vocab (ins : Inspector) (documents : Documents)
    (nationality : Option String)
    (hEXPt : (check_expirations documents TODAY).isSome = true)
    (hACC : ∀ dipl, lookupKV documents "diplomatic authorization" = some dipl →
        (lookupKV dipl "ACCESS").isSome = true)
    (hPUR : ∀ permit, lookupKV documents "access permit" = some permit →
        (lookupKV permit "PURPOSE").isSome = true)
    (hVAC : ∀ cert, lookupKV documents "certificate of vaccination" = some cert →
        (lookupKV cert "VACCINES").isSome = true) :
    ∃ s, (expirationOnward ins documents nationality).1 = some s ∧
      decisionVocabulary s := by
  unfold expirationOnward
  split
  next hnone => rw [hnone] at hEXPt; simp at hEXPt
  · exact accessOnward_vocab ins documents nationality hACC hPUR hVAC
  · exact ⟨_, rfl, vocab_expired _⟩

theorem requiredDocsOnward_vocab (ins : Inspector) (documents : Documents)
    (nationality : Option String)
    (hEXPt : (check_expirations documents TODAY).isSome = true)
    (hACC : ∀ dipl, lookupKV documents "diplomatic authorization" = some dipl →
        (lookupKV dipl "ACCESS").isSome = true)
    (hPUR : ∀ permit, lookupKV documents "access permit" = some permit →
        (lookupKV permit "PURPOSE").isSome = true)
    (hVAC : ∀ cert, lookupKV documents "certificate of vaccination" = some cert →
        (lookupKV cert "VACCINES").isSome = true) :
    ∃ s, (requiredDocsOnward ins documents nationality).1 = some s ∧
      decisionVocabulary s := by
  cases nationality with
  | none =>
    unfold requiredDocsOnward
    dsimp only
    split
    · exact ⟨_, rfl, vocab_missing_required _⟩
    · exact expirationOnward_vocab ins documents none hEXPt hACC hPUR hVAC
  | some x =>
    unfold requiredDocsOnward
    dsimp only
    split
    · exact ⟨_, rfl, vocab_missing_required _⟩
    · exact expirationOnward_vocab _ documents (some x) hEXPt hACC hPUR hVAC

/-- A reported mismatch's field comes from the fixed field list. -/
theorem check_mismatches_mem_fields (documents : Documents) (field : String)
    (values : List String)
    (h : (field, values) ∈ check_mismatches documents) : field ∈ MISMATCH_FIELDS := by
  unfold check_mismatches at h
  rcases List.mem_filterMap.mp h with ⟨a, ha, hfa⟩
  dsimp only at hfa
  split at hfa
  · simp only [Option.some.injEq, Prod.mk.injEq] at hfa
    exact hfa.1 ▸ ha
  · cases hfa

/-- Every field of the fixed list has a label in `FIELDS_TO_STR`. -/
theorem fields_label (field : String) (hf : field ∈ MISMATCH_FIELDS) :
    ∃ lbl, lookupKV FIELDS_TO_STR field = some lbl ∧
      lbl ∈ ["name", "date of birth", "sex", "ID number", "nationality"] := by
  simp only [MISMATCH_FIELDS, FIELDS_TO_STR, List.map, List.mem_cons,
    List.not_mem_nil, or_false] at hf
  rcases hf with rfl | rfl | rfl | rfl | rfl
  · exact ⟨"name", rfl, by simp⟩
  · exact ⟨"date of birth", rfl, by simp⟩
  · exact ⟨"sex", rfl, by simp⟩
  · exact ⟨"ID number", rfl, by simp⟩
  · exact ⟨"nationality", rfl, by simp⟩

/-- Claim C2 (amended): for every entrant submission that parses, `inspect`
returns exactly one string of the fixed decision vocabulary, provided every
truthy `EXP` field parses as a date and the three conditionally-read fields
are present where their documents are (a diplomatic authorization carries
ACCESS, an access permit carries PURPOSE, a certificate of vaccination
carries VACCINES); without those provisos `inspect` can raise `KeyError`
(see the counterexample). -/
theorem C2_total_vocabulary (ins : Inspector) (entrant : List (String × String))
    (documents : Documents)
    (hparse : parse_entrant entrant = .ok documents)
    (hEXP : ∀ d ∈ documents, ∀ s, lookupKV d.2 "EXP" = some s → (s == "") = false →
        (strptimeYMD s).isSome = true)
    (hACC : ∀ dipl, lookupKV documents "diplomatic authorization" = some dipl →
        (lookupKV dipl "ACCESS").isSome = true)
    (hPUR : ∀ permit, lookupKV documents "access permit" = some permit →
        (lookupKV permit "PURPOSE").isSome = true)
    (hVAC : ∀ cert, lookupKV documents "certificate of vaccination" = some cert →
        (lookupKV cert "VACCINES").isSome = true) :
    ∃ s, (inspect ins entrant).1 = some s ∧ decisionVocabulary s := by
  unfold inspect
  rw [hparse]
  dsimp only
  split
  next field vals tail heq =>
    have hmem : (field, vals) ∈ check_mismatches documents := by
      rw [heq]; exact List.mem_cons_self _ _
    obtain ⟨lbl, hlk, hlbl⟩ :=
      fields_label field (check_mismatches_mem_fields documents field vals hmem)
    rw [hlk]
    exact ⟨_, rfl, Or.inl ⟨lbl, hlbl, rfl⟩⟩
  next heq =>
    split
    · exact ⟨_, rfl, by unfold decisionVocabulary; simp⟩
    · exact requiredDocsOnward_vocab ins documents _
        (check_expirations_total documents TODAY hEXP) hACC hPUR hVAC

/-- Witness for the amended claim C2: the empty entrant parses and receives a
vocabulary decision. -/
theorem C2_total_vocabulary_witness :
    ∃ s, (inspect initInspector []).1 = some s ∧ decisionVocabulary s :=
  C2_total_vocabulary initInspector [] [] rfl
    (fun d hd => absurd hd (List.not_mem_nil _))
    (fun dipl h => by simp [lookupKV] at h)
    (fun permit h => by simp [lookupKV] at h)
    (fun cert h => by simp [lookupKV] at h)

/-- Witness for claim C8 at the initial inspector state. -/
theorem C8_allow_idempotent_witness :
    ((applyEntry (applyEntry initInspector "Allow citizens of Obristan").1
        "Allow citizens of Obristan").1).allowed_countries =
      ((applyEntry initInspector "Allow citizens of Obristan").1).allowed_countries :=
  C8_allow_idempotent initInspector

/-- Witness for the amended claim C3 at a concrete state and entrant. -/
theorem C3_amended_witness :
    Preserved initInspector (inspect initInspector []).2 :=
  C3_amended initInspector []

end PapersPlease
